import Mathlib

/-!
Verification of the two hook scripts of `rollercoaster-dev/graph-flow`:
`hooks/session-check.py` (prompt-time reporter) and `hooks/session-start.py`
(session-start reporter).  Each script is a single-shot process that reads
the environment variable `CLAUDE_PROJECT_DIR`, the working directory, and at
most one file (`<root>/.mcp.json`), and prints one line to standard output.

The embedding models a run as a pure function of an explicit `State`
(environment variable, working directory, filesystem).  Python values parsed
from JSON are modelled by the inductive `Json`; Python's dynamic dispatch on
`config.get(...)` and `"graph-flow" in servers` is modelled by functions
returning `Except PyError _`, since the scripts catch only
`json.JSONDecodeError` and `OSError` and any other exception escapes `main`
(the process then prints nothing to stdout and exits unsuccessfully).
-/

/-- Values produced by Python's `json.load`: null, booleans, numbers,
strings, arrays, and objects (dicts keyed by strings).  An `obj` represents
a parsed JSON object, so its keys are distinct; lookups follow Python dict
access.  Numeric payloads are modelled by `Int` — the hooks never inspect a
numeric value, only the dynamic type of the parsed data matters here. -/
inductive Json where
  | null
  | bool (b : Bool)
  | num (n : Int)
  | str (s : String)
  | arr (elems : List Json)
  | obj (fields : List (String × Json))

/-- State of one filesystem path as the scripts can observe it:
no regular file at the path (`absent`, covering missing files and
directories: both make `os.path.isfile` false and make `open` raise
`OSError`), a regular file whose open/read raises `OSError`
(`unreadable`), a regular file whose bytes fail text decoding
(`undecodable`, for example a truncated multi-byte character: the read
inside `json.load` raises `UnicodeDecodeError`, which is a `ValueError`
but not a `json.JSONDecodeError`, so the scripts' `except` clause does
not catch it), a regular file whose contents decode as text but do not
parse as JSON (`invalid`, `json.load` raises `json.JSONDecodeError`), or
a regular file whose contents parse to the given JSON value. -/
inductive FileData where
  | absent
  | unreadable
  | undecodable
  | invalid
  | json (v : Json)

/-- Python exceptions that the hook code can raise while handling the
configuration file.  `jsonDecodeError` and `osError` are the two caught by
`has_graph_flow_entry`; `unicodeDecodeError` (undecodable bytes read
inside `json.load`), `attributeError` (calling `.get` on a non-dict) and
`typeError` (`in` applied to a non-container) are not caught anywhere. -/
inductive PyError where
  | jsonDecodeError
  | osError
  | unicodeDecodeError
  | attributeError
  | typeError
deriving DecidableEq

/-- External state a run observes: the `CLAUDE_PROJECT_DIR` environment
variable (`none` when unset), the current working directory, and the
filesystem, keyed by cwd-resolved path strings (paths are compared
syntactically; the scripts never normalise them). -/
structure State where
  env : Option String
  cwd : String
  fs : String → FileData

/-- Result of running a script once: `out` is the list of payloads passed
to `print` (each printed as one line), `err` is the uncaught exception if
the run crashed (`none` means the process exits with status 0; an uncaught
exception makes Python print a traceback to stderr and exit non-zero), and
`final` is the external state after the run. -/
structure RunResult where
  out : List String
  err : Option PyError
  final : State

/-- Path predicate `os.path.isabs` for POSIX paths: starts with a slash. -/
def isAbs (p : String) : Bool :=
  match p.data with
  | '/' :: _ => true
  | _ => false

/-- Test whether a string ends with a slash (used by `os.path.join`). -/
def endsWithSlash (a : String) : Bool :=
  a.data.getLast? == some '/'

/-- POSIX `os.path.join` for two components: an absolute second component
replaces the first; an empty or slash-terminated first component is
prefixed as is; otherwise a slash is inserted. -/
def os_path_join (a b : String) : String :=
  if isAbs b then b
  else if a = "" then b
  else if endsWithSlash a then a ++ b
  else a ++ "/" ++ b

/-- Resolution of a possibly relative path against the working directory,
as the operating system does for `os.path.isfile` and `open`. -/
def resolvePath (cwd p : String) : String :=
  if isAbs p then p else os_path_join cwd p

/-- Predicate `os.path.isfile`: a regular file exists at the path (resolved
against the working directory).  It never raises. -/
def isfile (st : State) (p : String) : Bool :=
  match st.fs (resolvePath st.cwd p) with
  | .absent => false
  | _ => true

/-- Model of `open(p)` followed by `json.load(f)`: `OSError` when there is
no readable regular file at the resolved path, `UnicodeDecodeError` when
the bytes do not decode as text, `JSONDecodeError` when the decoded text
does not parse, otherwise the parsed JSON value. -/
def openAndLoad (st : State) (p : String) : Except PyError Json :=
  match st.fs (resolvePath st.cwd p) with
  | .absent => .error .osError
  | .unreadable => .error .osError
  | .undecodable => .error .unicodeDecodeError
  | .invalid => .error .jsonDecodeError
  | .json v => .ok v

/-- Python dict lookup with default, for parsed JSON objects. -/
def dict_get (kvs : List (String × Json)) (k : String) (dflt : Json) : Json :=
  (kvs.lookup k).getD dflt

/-- Python attribute call `config.get(k, dflt)`: dict lookup with default
when `config` is a dict; any other value parsed from JSON (`None`, bool,
number, string, list) has no `get` method, so the call raises
`AttributeError`. -/
def py_get (config : Json) (k : String) (dflt : Json) : Except PyError Json :=
  match config with
  | .obj kvs => .ok (dict_get kvs k dflt)
  | _ => .error .attributeError

/-- Python substring test `needle in hay` on strings: some suffix of `hay`
starts with `needle` (the empty needle is contained in every string). -/
def str_contains (hay needle : String) : Bool :=
  (List.range (hay.data.length + 1)).any
    (fun i => (hay.data.drop i).take needle.data.length == needle.data)

/-- Python membership `needle in container` for a string needle and a
container parsed from JSON: key membership for dicts, substring test for
strings, element equality for lists (a list element equals a Python string
only if it is that string); `None`, booleans and numbers are not
containers, so `in` raises `TypeError`. -/
def py_in (needle : String) (container : Json) : Except PyError Bool :=
  match container with
  | .obj kvs => .ok (kvs.any (fun kv => kv.1 == needle))
  | .str s => .ok (str_contains s needle)
  | .arr xs => .ok (xs.any (fun x => match x with | .str s => s == needle | _ => false))
  | _ => .error .typeError

namespace SessionCheck

/-- Translation of `find_mcp_config` from `hooks/session-check.py`:
take the project root from `CLAUDE_PROJECT_DIR` (defaulting to the working
directory), join it with `.mcp.json`, and return the joined path when a
regular file exists there, `None` otherwise.  Total: it never raises. -/
def find_mcp_config (st : State) : Option String :=
  let project_dir := st.env.getD st.cwd
  let mcp_path := os_path_join project_dir ".mcp.json"
  if isfile st mcp_path then some mcp_path else none

/-- Translation of `has_graph_flow_entry` from `hooks/session-check.py`:
run the body (open and parse the file, call `config.get("mcpServers", {})`,
test `"graph-flow" in servers`), then apply the
`except (json.JSONDecodeError, OSError): return False` handler.
`AttributeError` and `TypeError` from the body are not caught. -/
def has_graph_flow_entry (st : State) (mcp_path : String) : Except PyError Bool :=
  let body : Except PyError Bool :=
    match openAndLoad st mcp_path with
    | .error e => .error e
    | .ok config =>
      match py_get config "mcpServers" (Json.obj []) with
      | .error e => .error e
      | .ok servers => py_in "graph-flow" servers
  match body with
  | .error .jsonDecodeError => .ok false
  | .error .osError => .ok false
  | r => r

end SessionCheck

/-- The configured-case line printed by `hooks/session-check.py`. -/
def CONFIGURED_LINE : String :=
  "graph-flow MCP tools available: c- (checkpoint), k- (knowledge), g- (graph), p- (planning), a- (automation). Use ToolSearch to discover specific tools."

/-- The not-configured-case line printed by `hooks/session-check.py`. -/
def NOT_CONFIGURED_LINE : String :=
  "graph-flow MCP tools are NOT configured for this project. Run `/graph-flow:init` to set up MCP tools, then restart Claude Code."

namespace SessionCheck

/-- Translation of `main` from `hooks/session-check.py`.  The guard is
Python's `if mcp_path and has_graph_flow_entry(mcp_path)`: a `None` or
empty-string path is falsy and short-circuits, so the checker is not
invoked; the checker runs only on a located path, and an exception it
raises escapes `main` before anything is printed. -/
def main (st : State) : RunResult :=
  match find_mcp_config st with
  | none => ⟨[NOT_CONFIGURED_LINE], none, st⟩
  | some mcp_path =>
    if mcp_path = "" then ⟨[NOT_CONFIGURED_LINE], none, st⟩
    else
      match has_graph_flow_entry st mcp_path with
      | .ok true => ⟨[CONFIGURED_LINE], none, st⟩
      | .ok false => ⟨[NOT_CONFIGURED_LINE], none, st⟩
      | .error e => ⟨[], some e, st⟩

end SessionCheck

/-- Hexadecimal digit characters used by JSON `\uXXXX` escapes
(lowercase, as Python's `json.dumps` emits them). -/
def hexDigit (n : Nat) : Char :=
  match n % 16 with
  | 0 => '0' | 1 => '1' | 2 => '2' | 3 => '3' | 4 => '4' | 5 => '5' | 6 => '6' | 7 => '7'
  | 8 => '8' | 9 => '9' | 10 => 'a' | 11 => 'b' | 12 => 'c' | 13 => 'd' | 14 => 'e' | _ => 'f'

/-- Four-digit hexadecimal rendering of a code unit for `\uXXXX` escapes. -/
def hex4 (n : Nat) : List Char :=
  [hexDigit (n / 4096), hexDigit (n / 256), hexDigit (n / 16), hexDigit n]

/-- Escaping of one character inside a JSON string literal as Python's
`json.dumps` does with its default `ensure_ascii=True`: short escapes for
quote, backslash and the five named control characters, `\uXXXX` for other
control characters and for every non-ASCII character (a surrogate pair
above U+FFFF), and the character itself otherwise. -/
def escChar (c : Char) : List Char :=
  if c = '"' then ['\\', '"']
  else if c = '\\' then ['\\', '\\']
  else if c = '\n' then ['\\', 'n']
  else if c = '\t' then ['\\', 't']
  else if c = '\r' then ['\\', 'r']
  else if c = '\x08' then ['\\', 'b']
  else if c = '\x0c' then ['\\', 'f']
  else if c.toNat < 32 || 127 <= c.toNat then
    if c.toNat < 65536 then '\\' :: 'u' :: hex4 c.toNat
    else
      let n := c.toNat - 65536
      ('\\' :: 'u' :: hex4 (55296 + n / 1024)) ++ ('\\' :: 'u' :: hex4 (56320 + n % 1024))
  else [c]

/-- JSON string literal: quote, escaped characters, quote. -/
def quoteStr (s : String) : List Char :=
  '"' :: (s.data.map escChar).flatten ++ ['"']

mutual

/-- Serialisation of a JSON value as Python's `json.dumps` renders it with
default options: separators `", "` and `": "`, `ensure_ascii=True`. -/
def dumpVal : Json → List Char
  | .null => "null".data
  | .bool true => "true".data
  | .bool false => "false".data
  | .num n => (toString n).data
  | .str s => quoteStr s
  | .arr xs => '[' :: dumpElems xs ++ [']']
  | .obj kvs => '\x7b' :: dumpFields kvs ++ ['\x7d']

/-- Serialisation of array elements, joined by `", "`. -/
def dumpElems : List Json → List Char
  | [] => []
  | [x] => dumpVal x
  | x :: xs => dumpVal x ++ ',' :: ' ' :: dumpElems xs

/-- Serialisation of object fields, `"key": value` joined by `", "`. -/
def dumpFields : List (String × Json) → List Char
  | [] => []
  | [(k, v)] => quoteStr k ++ ':' :: ' ' :: dumpVal v
  | (k, v) :: kvs => (quoteStr k ++ ':' :: ' ' :: dumpVal v) ++ ',' :: ' ' :: dumpFields kvs

end

/-- Model of Python `json.dumps` with default options. -/
def json_dumps (v : Json) : String :=
  String.mk (dumpVal v)

/-- The fixed advisory text `CONTEXT` from `hooks/session-start.py`,
transcribed verbatim (apostrophes written `\x27`, em dash `—`,
rightwards arrow `→`). -/
def CONTEXT : String :=
  "graph-flow MCP tools active. These answer different questions than grep/glob/LSP:\n" ++
  "\n" ++
  "GRAPH TOOLS (run g-index first to populate the cache)\n" ++
  "g-index: Index code files before using other g- tools. Run once per session on packages you\x27ll work in.\n" ++
  "g-calls: \"What directly calls this function?\" Structured caller data across the full indexed codebase — faster and more complete than grep.\n" ++
  "g-blast: \"What breaks if I change X?\" Traces the full transitive call graph. Use BEFORE modifying any shared function, type, or class.\n" ++
  "g-defs: \"What is defined in this file?\" All functions, classes, interfaces with line numbers.\n" ++
  "\n" ++
  "DOCS GRAPH TOOLS (run d-index first)\n" ++
  "d-index: Index markdown files into the docs graph. Pass glob patterns e.g. [\x27docs/**/*.md\x27, \x27README.md\x27]. Extracts hierarchical sections and builds DOCUMENTS relationships (backtick identifiers in docs → code entities).\n" ++
  "d-query: Semantic search over indexed doc sections.\n" ++
  "d-for-code: \"What docs exist for function X?\" Traverses DOCUMENTS relationships built during d-index.\n" ++
  "\n" ++
  "KNOWLEDGE TOOLS\n" ++
  "k-query: \"What do I already know about this area?\" Run at the start of any non-trivial task, before opening files.\n" ++
  "k-store: \"This was non-obvious.\" Capture gotchas, patterns, architectural decisions not in the code.\n" ++
  "k-index: Index markdown as session learnings (separate from docs graph — stores as searchable learnings).\n" ++
  "k-related: Find learnings related to a given learning by ID."

/-- The line printed by `hooks/session-start.py` in the not-configured
case: the literal two-character text of an empty JSON object. -/
def EMPTY_OBJ_LINE : String := "\x7b\x7d"

namespace SessionStart

/-- Translation of `find_mcp_config` from `hooks/session-start.py` (the
same computation as in `session-check.py`, written there with a
conditional expression instead of an early return). -/
def find_mcp_config (st : State) : Option String :=
  let project_dir := st.env.getD st.cwd
  let mcp_path := os_path_join project_dir ".mcp.json"
  if isfile st mcp_path then some mcp_path else none

/-- Translation of `has_graph_flow_entry` from `hooks/session-start.py`
(the same computation as in `session-check.py`, with the membership test
inlined on the `return` line there). -/
def has_graph_flow_entry (st : State) (mcp_path : String) : Except PyError Bool :=
  let body : Except PyError Bool :=
    match openAndLoad st mcp_path with
    | .error e => .error e
    | .ok config =>
      match py_get config "mcpServers" (Json.obj []) with
      | .error e => .error e
      | .ok servers => py_in "graph-flow" servers
  match body with
  | .error .jsonDecodeError => .ok false
  | .error .osError => .ok false
  | r => r

/-- The dict built by `main` in `hooks/session-start.py` for the
configured case:
`{"hookSpecificOutput": {"hookEventName": "SessionStart", "additionalContext": CONTEXT}}`. -/
def output : Json :=
  Json.obj [("hookSpecificOutput",
    Json.obj [("hookEventName", Json.str "SessionStart"),
              ("additionalContext", Json.str CONTEXT)])]

/-- Translation of `main` from `hooks/session-start.py`: print the
literal `EMPTY_OBJ_LINE` and return unless a path is located, is truthy,
and the checker returns `True`; in the configured case print
`json.dumps(output)`.  An exception raised by the checker escapes `main`
before anything is printed. -/
def main (st : State) : RunResult :=
  match find_mcp_config st with
  | none => ⟨[EMPTY_OBJ_LINE], none, st⟩
  | some mcp_path =>
    if mcp_path = "" then ⟨[EMPTY_OBJ_LINE], none, st⟩
    else
      match has_graph_flow_entry st mcp_path with
      | .ok false => ⟨[EMPTY_OBJ_LINE], none, st⟩
      | .ok true => ⟨[json_dumps output], none, st⟩
      | .error e => ⟨[], some e, st⟩

end SessionStart

/-- The path both scripts build for the configuration file: the project
root (`CLAUDE_PROJECT_DIR`, defaulting to the working directory) joined
with `.mcp.json`. -/
def cfgPath (st : State) : String :=
  os_path_join (st.env.getD st.cwd) ".mcp.json"

/-- The filesystem data at the configuration path, after resolution
against the working directory — the only file either script ever reads. -/
def configData (st : State) : FileData :=
  st.fs (resolvePath st.cwd (cfgPath st))

/-- Shape condition under which `has_graph_flow_entry` cannot raise: the
configuration file is absent or unreadable (`OSError`, caught) or decodes
as text but fails to parse (`JSONDecodeError`, caught), or parses to a
top-level mapping whose `"mcpServers"` value, when present, is itself a
mapping.  Undecodable bytes are not benign: the read inside `json.load`
raises `UnicodeDecodeError`, which the `except` clause does not catch; a
top-level non-mapping makes `config.get` raise `AttributeError`; a
non-container `"mcpServers"` value makes `in` raise `TypeError`; all
three escape the scripts. -/
def benignData : FileData → Bool
  | .absent => true
  | .unreadable => true
  | .undecodable => false
  | .invalid => true
  | .json (.obj kvs) =>
    match kvs.lookup "mcpServers" with
    | some (.obj _) => true
    | some _ => false
    | none => true
  | .json _ => false

/-- Keys of a parsed JSON mapping; a value that is not a mapping has no
keys.  Used to state the spec's "the target name is among that mapping's
keys" condition. -/
def topKeys : Json → List String
  | .obj kvs => kvs.map Prod.fst
  | _ => []

/-- Filesystem fixture holding exactly one regular file (or unreadable /
malformed file) at the given resolved path. -/
def fsOnly (path : String) (d : FileData) : String → FileData :=
  fun q => if q = path then d else FileData.absent

/-- Parsed contents `{"mcpServers": {"graph-flow": {}}}`. -/
def GOOD_JSON : Json := .obj [("mcpServers", .obj [("graph-flow", .obj [])])]

/-- Parsed contents `{}` (empty object). -/
def EMPTY_JSON : Json := .obj []

/-- Parsed contents `{"mcpServers": {"other-tool": {}}}`. -/
def OTHER_JSON : Json := .obj [("mcpServers", .obj [("other-tool", .obj [])])]

/-- Fixture: cwd `/w`, variable unset, `/w/.mcp.json` holds `GOOD_JSON`. -/
def stGood : State := ⟨none, "/w", fsOnly "/w/.mcp.json" (.json GOOD_JSON)⟩

/-- Fixture: `/w/.mcp.json` holds `{"mcpServers": "graph-flow"}` — valid
JSON whose `"mcpServers"` value is a string, not a mapping. -/
def stSubstr : State :=
  ⟨none, "/w", fsOnly "/w/.mcp.json" (.json (.obj [("mcpServers", .str "graph-flow")]))⟩

/-- Fixture: `/w/.mcp.json` holds `7` — valid JSON, top level not a
mapping. -/
def stTopNum : State := ⟨none, "/w", fsOnly "/w/.mcp.json" (.json (.num 7))⟩

/-- Fixture: `/w/.mcp.json` holds `[]` — valid JSON, top level not a
mapping. -/
def stTopArr : State := ⟨none, "/w", fsOnly "/w/.mcp.json" (.json (.arr []))⟩

/-- Fixture: `/w/.mcp.json` holds `{"mcpServers": true}` — valid JSON
whose `"mcpServers"` value is not a container. -/
def stSrvBool : State :=
  ⟨none, "/w", fsOnly "/w/.mcp.json" (.json (.obj [("mcpServers", .bool true)]))⟩

/-- Fixture: `/w/.mcp.json` holds `{"mcpServers": null}` — valid JSON
whose `"mcpServers"` value is not a container. -/
def stSrvNull : State :=
  ⟨none, "/w", fsOnly "/w/.mcp.json" (.json (.obj [("mcpServers", .null)]))⟩

/-- Fixture: `/w/.mcp.json` exists and decodes as text but its contents
do not parse as JSON. -/
def stInvalid : State := ⟨none, "/w", fsOnly "/w/.mcp.json" FileData.invalid⟩

/-- Fixture: `/w/.mcp.json` exists but its bytes fail text decoding
(for example a truncated multi-byte character). -/
def stUndecodable : State := ⟨none, "/w", fsOnly "/w/.mcp.json" FileData.undecodable⟩

/-- Fixture: like `stGood` but with one extra unrelated file at
`/w/other.txt`; the configuration file itself is unchanged. -/
def stGoodExtra : State :=
  ⟨none, "/w", fun q => if q = "/w/other.txt" then FileData.invalid
    else fsOnly "/w/.mcp.json" (.json GOOD_JSON) q⟩

/-- Fixture: `CLAUDE_PROJECT_DIR` set to the relative path `rel`, cwd
`/w`, and a configuration file at `/w/rel/.mcp.json` (where the OS
resolves `rel/.mcp.json`). -/
def stRel : State := ⟨some "rel", "/w", fsOnly "/w/rel/.mcp.json" (.json EMPTY_JSON)⟩

/-- Fixture for the environment-override scenario: `CLAUDE_PROJECT_DIR`
set to `/d` which contains the file, while the working directory `/w`
differs and lacks it. -/
def stOverride : State := ⟨some "/d", "/w", fsOnly "/d/.mcp.json" (.json GOOD_JSON)⟩

/-- State whose configuration file (at the path the scripts resolve) holds
`d`, with environment `e`, working directory `c`, and `f` describing every
other path. -/
def withCfg (e : Option String) (c : String) (f : String → FileData) (d : FileData) : State :=
  ⟨e, c, fun q => if q = resolvePath c (os_path_join (e.getD c) ".mcp.json") then d else f q⟩

/-- Helper: the two scripts' `has_graph_flow_entry` translations are
definitionally the same function. -/
theorem hasStart_eq_hasCheck (st : State) (p : String) :
    SessionStart.has_graph_flow_entry st p = SessionCheck.has_graph_flow_entry st p := rfl

/-- Helper: the two scripts' `find_mcp_config` translations are
definitionally the same function. -/
theorem findStart_eq_findCheck (st : State) :
    SessionStart.find_mcp_config st = SessionCheck.find_mcp_config st := rfl

/-- Helper: `find_mcp_config` written through `cfgPath`. -/
theorem findCheck_eq (st : State) :
    SessionCheck.find_mcp_config st =
      if isfile st (cfgPath st) then some (cfgPath st) else none := rfl

/-- Helper: the configuration path is never the empty string, hence never
falsy in Python's `if mcp_path and ...` guard once located. -/
theorem join_mcp_ne_empty (a : String) : os_path_join a ".mcp.json" ≠ "" := by
  intro h
  unfold os_path_join at h
  have h9 : (".mcp.json" : String).length = 9 := rfl
  have h1l : ("/" : String).length = 1 := rfl
  have h0 : ("" : String).length = 0 := rfl
  split_ifs at h with h1 h2 h3
  · exact absurd h1 (by decide)
  · exact absurd h (by decide)
  · have hlen := congrArg String.length h
    rw [String.length_append, h9, h0] at hlen
    omega
  · have hlen := congrArg String.length h
    rw [String.length_append, String.length_append, h1l, h9, h0] at hlen
    omega

/-- Helper: when no regular file exists at the configuration path, the
prompt-time reporter prints the not-configured line and succeeds, for any
contents elsewhere in the filesystem. -/
theorem mainCheck_of_notfound (st : State) (h : isfile st (cfgPath st) = false) :
    SessionCheck.main st = ⟨[NOT_CONFIGURED_LINE], none, st⟩ := by
  simp only [cfgPath] at h
  simp only [SessionCheck.main, SessionCheck.find_mcp_config]
  rw [h]
  exact rfl

/-- Helper: when a regular file exists at the configuration path, the
prompt-time reporter dispatches on the checker's result. -/
theorem mainCheck_of_found (st : State) (h : isfile st (cfgPath st) = true) :
    SessionCheck.main st =
      match SessionCheck.has_graph_flow_entry st (cfgPath st) with
      | .ok true => ⟨[CONFIGURED_LINE], none, st⟩
      | .ok false => ⟨[NOT_CONFIGURED_LINE], none, st⟩
      | .error e => ⟨[], some e, st⟩ := by
  simp only [cfgPath] at h
  simp only [SessionCheck.main, SessionCheck.find_mcp_config]
  rw [h]
  simp only [eq_self_iff_true, if_true]
  rw [if_neg (join_mcp_ne_empty (st.env.getD st.cwd))]
  simp only [cfgPath]

/-- Helper: when no regular file exists at the configuration path, the
session-start reporter prints the empty object and succeeds. -/
theorem mainStart_of_notfound (st : State) (h : isfile st (cfgPath st) = false) :
    SessionStart.main st = ⟨[EMPTY_OBJ_LINE], none, st⟩ := by
  simp only [cfgPath] at h
  simp only [SessionStart.main, SessionStart.find_mcp_config]
  rw [h]
  exact rfl

/-- Helper: when a regular file exists at the configuration path, the
session-start reporter dispatches on the checker's result. -/
theorem mainStart_of_found (st : State) (h : isfile st (cfgPath st) = true) :
    SessionStart.main st =
      match SessionStart.has_graph_flow_entry st (cfgPath st) with
      | .ok true => ⟨[json_dumps SessionStart.output], none, st⟩
      | .ok false => ⟨[EMPTY_OBJ_LINE], none, st⟩
      | .error e => ⟨[], some e, st⟩ := by
  simp only [cfgPath] at h
  simp only [SessionStart.main, SessionStart.find_mcp_config]
  rw [h]
  simp only [eq_self_iff_true, if_true]
  rw [if_neg (join_mcp_ne_empty (st.env.getD st.cwd))]
  simp only [cfgPath]
  cases SessionStart.has_graph_flow_entry st (os_path_join (st.env.getD st.cwd) ".mcp.json") with
  | ok b => cases b <;> rfl
  | error e => rfl

/-- Helper: on benign file data the checker cannot raise: it returns some
boolean. -/
theorem has_ok_of_benign (st : State) (p : String)
    (h : benignData (st.fs (resolvePath st.cwd p)) = true) :
    ∃ b, SessionCheck.has_graph_flow_entry st p = Except.ok b := by
  unfold SessionCheck.has_graph_flow_entry openAndLoad
  cases hfd : st.fs (resolvePath st.cwd p) with
  | absent => exact ⟨false, rfl⟩
  | unreadable => exact ⟨false, rfl⟩
  | undecodable =>
    rw [hfd] at h
    exact absurd h (by decide)
  | invalid => exact ⟨false, rfl⟩
  | json v =>
    rw [hfd] at h
    cases v with
    | obj kvs =>
      simp only [benignData] at h
      cases hl : kvs.lookup "mcpServers" with
      | none =>
        refine ⟨false, ?_⟩
        simp [py_get, dict_get, hl, py_in]
      | some sv =>
        rw [hl] at h
        cases sv with
        | obj skvs =>
          exact ⟨skvs.any (fun kv => kv.1 == "graph-flow"),
            by simp [py_get, dict_get, hl, py_in]⟩
        | null => simp at h
        | bool b => simp at h
        | num n => simp at h
        | str s => simp at h
        | arr xs => simp at h
    | null => simp [benignData] at h
    | bool b => simp [benignData] at h
    | num n => simp [benignData] at h
    | str s => simp [benignData] at h
    | arr xs => simp [benignData] at h

/-- Helper: `isAbs` is preserved by appending on the right. -/
theorem isAbs_append (a b : String) (h : isAbs a = true) : isAbs (a ++ b) = true := by
  unfold isAbs at h ⊢
  rw [String.data_append]
  split at h
  next heq => rw [heq]; rfl
  next => exact absurd h (by simp)

/-- Helper: the `withCfg` construction indeed places `d` at the
configuration path the scripts resolve. -/
theorem configData_withCfg (e : Option String) (c : String) (f : String → FileData)
    (d : FileData) : configData (withCfg e c f d) = d := by
  simp [configData, withCfg, cfgPath]

/-- Claim C1, corrected.  The original claim — for every file whose
contents parse successfully, the checker returns true iff `"graph-flow"`
is among the keys of the `"mcpServers"` mapping (empty when absent) — is
refuted by `claim1_counterexample`: Python's `in` degenerates to a
substring test when the `"mcpServers"` value is a string, and `config.get`
raises when the top level is not a mapping.  Amended claim: for every path
whose contents parse to a top-level mapping in which the value that
`config.get("mcpServers", {})` yields is itself a mapping, both scripts'
checkers return normally — some boolean, never an exception (the first
two conjuncts) — and return `True` exactly when `"graph-flow"` is among
that mapping's keys (the last two). -/
theorem claim1_entry_checker_amended (st : State) (p : String)
    (kvs skvs : List (String × Json))
    (hfile : st.fs (resolvePath st.cwd p) = FileData.json (Json.obj kvs))
    (hmap : dict_get kvs "mcpServers" (Json.obj []) = Json.obj skvs) :
    (∃ b, SessionCheck.has_graph_flow_entry st p = Except.ok b)
    ∧ (∃ b, SessionStart.has_graph_flow_entry st p = Except.ok b)
    ∧ (SessionCheck.has_graph_flow_entry st p = Except.ok true
      ↔ "graph-flow" ∈ skvs.map Prod.fst)
    ∧ (SessionStart.has_graph_flow_entry st p = Except.ok true
      ↔ "graph-flow" ∈ skvs.map Prod.fst) := by
  have key : SessionCheck.has_graph_flow_entry st p
      = Except.ok (skvs.any (fun kv => kv.1 == "graph-flow")) := by
    unfold SessionCheck.has_graph_flow_entry openAndLoad
    rw [hfile]
    simp [py_get, hmap, py_in]
  have key2 : SessionStart.has_graph_flow_entry st p
      = Except.ok (skvs.any (fun kv => kv.1 == "graph-flow")) := by
    rw [hasStart_eq_hasCheck]
    exact key
  have hiff : (skvs.any (fun kv => kv.1 == "graph-flow") = true)
      ↔ "graph-flow" ∈ skvs.map Prod.fst := by
    simp [List.any_eq_true, List.mem_map, beq_iff_eq]
  refine ⟨⟨_, key⟩, ⟨_, key2⟩, ?_, ?_⟩
  · rw [key]; simp only [Except.ok.injEq]; exact hiff
  · rw [key2]; simp only [Except.ok.injEq]; exact hiff

/-- Claim C1, counterexample to the original wording: the file
`/w/.mcp.json` holds `{"mcpServers": "graph-flow"}`, which parses
successfully; its `"mcpServers"` value is a string, so it is not a mapping
and has no keys, yet the checker returns `True` because Python's `in`
performs a substring search on strings. -/
theorem claim1_counterexample :
    SessionCheck.has_graph_flow_entry stSubstr "/w/.mcp.json" = Except.ok true
    ∧ configData stSubstr = FileData.json (Json.obj [("mcpServers", Json.str "graph-flow")])
    ∧ topKeys (dict_get [("mcpServers", Json.str "graph-flow")] "mcpServers" (Json.obj [])) = [] :=
  ⟨rfl, rfl, rfl⟩

/-- Claim C1, witness: on `{"mcpServers": {"graph-flow": {}}}` both
checkers return `True`. -/
theorem claim1_witness :
    SessionCheck.has_graph_flow_entry stGood "/w/.mcp.json" = Except.ok true
    ∧ SessionStart.has_graph_flow_entry stGood "/w/.mcp.json" = Except.ok true := by
  have h := claim1_entry_checker_amended stGood "/w/.mcp.json"
    [("mcpServers", Json.obj [("graph-flow", Json.obj [])])]
    [("graph-flow", Json.obj [])] rfl rfl
  exact ⟨h.2.2.1.mpr (by decide), h.2.2.2.mpr (by decide)⟩

/-- Claim C2, corrected.  The original claim — the checker returns
`False` and never raises on all syntactically invalid contents and on any
parse or I/O failure — is refuted by `claim2_counterexample`: on bytes
that fail text decoding (for example a truncated multi-byte character,
the spec's own truncated/corrupt scenario) the read inside `json.load`
raises `UnicodeDecodeError`, a `ValueError` that the
`except (json.JSONDecodeError, OSError)` clause does not catch, so the
checker raises.  Amended claim: when there is no readable regular file at
the path (`OSError`) or its contents decode as text but do not parse
(`json.JSONDecodeError`), both checkers return `False` and raise
nothing. -/
theorem claim2_fail_soft (st : State) (p : String)
    (h : st.fs (resolvePath st.cwd p) = FileData.absent
       ∨ st.fs (resolvePath st.cwd p) = FileData.unreadable
       ∨ st.fs (resolvePath st.cwd p) = FileData.invalid) :
    SessionCheck.has_graph_flow_entry st p = Except.ok false
    ∧ SessionStart.has_graph_flow_entry st p = Except.ok false := by
  have hc : SessionCheck.has_graph_flow_entry st p = Except.ok false := by
    unfold SessionCheck.has_graph_flow_entry openAndLoad
    rcases h with h | h | h <;> rw [h]
  exact ⟨hc, by rw [hasStart_eq_hasCheck]; exact hc⟩

/-- Claim C2, counterexample to the original wording: on a configuration
file whose bytes fail text decoding, both checkers raise
`UnicodeDecodeError` instead of returning `False`. -/
theorem claim2_counterexample :
    SessionCheck.has_graph_flow_entry stUndecodable "/w/.mcp.json"
      = Except.error PyError.unicodeDecodeError
    ∧ SessionStart.has_graph_flow_entry stUndecodable "/w/.mcp.json"
      = Except.error PyError.unicodeDecodeError :=
  ⟨rfl, rfl⟩

/-- Claim C2, witness: `/w/.mcp.json` exists and decodes but does not
parse; both checkers return `False`. -/
theorem claim2_witness :
    SessionCheck.has_graph_flow_entry stInvalid "/w/.mcp.json" = Except.ok false
    ∧ SessionStart.has_graph_flow_entry stInvalid "/w/.mcp.json" = Except.ok false :=
  claim2_fail_soft stInvalid "/w/.mcp.json" (Or.inr (Or.inr rfl))

/-- Helper: Bool coercion of a failed `= true` test. -/
theorem bool_eq_false_of_not_true (b : Bool) (h : ¬ b = true) : b = false := by
  revert h; cases b <;> simp

/-- Helper: on benign states the prompt-time reporter either prints the
configured line (with a located path on which the checker returns `True`)
or prints the not-configured line (and the checker returns `False` on any
located path). -/
theorem mainCheck_benign_cases (st : State) (h : benignData (configData st) = true) :
    (SessionCheck.main st = ⟨[CONFIGURED_LINE], none, st⟩
      ∧ SessionCheck.find_mcp_config st = some (cfgPath st)
      ∧ SessionCheck.has_graph_flow_entry st (cfgPath st) = Except.ok true)
    ∨ (SessionCheck.main st = ⟨[NOT_CONFIGURED_LINE], none, st⟩
      ∧ ∀ p, SessionCheck.find_mcp_config st = some p
          → SessionCheck.has_graph_flow_entry st p = Except.ok false) := by
  by_cases hf : isfile st (cfgPath st) = true
  · obtain ⟨b, hb⟩ := has_ok_of_benign st (cfgPath st) h
    have hmain := mainCheck_of_found st hf
    rw [hb] at hmain
    have hfind : SessionCheck.find_mcp_config st = some (cfgPath st) := by
      rw [findCheck_eq, hf]; exact rfl
    cases b
    · right
      refine ⟨by rw [hmain], ?_⟩
      intro p hp
      rw [hfind] at hp
      injection hp with hpe
      rw [← hpe]
      exact hb
    · left
      exact ⟨by rw [hmain], hfind, hb⟩
  · have hf' := bool_eq_false_of_not_true _ hf
    right
    refine ⟨mainCheck_of_notfound st hf', ?_⟩
    intro p hp
    rw [findCheck_eq, hf'] at hp
    exact absurd hp (by simp)

/-- Claim C3, corrected.  The original claim — both mains terminate
normally on every state, including unreadable, malformed, or
arbitrary-valued contents — is refuted by `claim3_counterexample` (valid
JSON `7` at the top level makes `config.get` raise an uncaught
`AttributeError`; likewise, a file whose bytes fail text decoding crashes
both mains with an uncaught `UnicodeDecodeError`, so not even every
"malformed" file is safe).  Amended claim: on every state whose
configuration file is absent, unreadable (`OSError`), or decodes as text
but fails to parse as JSON, or parses to a top-level mapping whose
`"mcpServers"` value (when present) is a mapping, both mains terminate
normally, so the process exits successfully. -/
theorem claim3_exit_success_amended (st : State)
    (h : benignData (configData st) = true) :
    (SessionCheck.main st).err = none ∧ (SessionStart.main st).err = none := by
  by_cases hf : isfile st (cfgPath st) = true
  · obtain ⟨b, hb⟩ := has_ok_of_benign st (cfgPath st) h
    have hc := mainCheck_of_found st hf
    have hs := mainStart_of_found st hf
    rw [hb] at hc
    rw [hasStart_eq_hasCheck, hb] at hs
    cases b
    · rw [hc, hs]; exact ⟨rfl, rfl⟩
    · rw [hc, hs]; exact ⟨rfl, rfl⟩
  · have hf' := bool_eq_false_of_not_true _ hf
    rw [mainCheck_of_notfound st hf', mainStart_of_notfound st hf']
    exact ⟨rfl, rfl⟩

/-- Claim C3, counterexample to the original wording: the file holds the
valid JSON `7`; `config.get` raises `AttributeError`, which neither script
catches, so both processes crash (non-zero exit, traceback on stderr). -/
theorem claim3_counterexample :
    (SessionCheck.main stTopNum).err = some PyError.attributeError
    ∧ (SessionStart.main stTopNum).err = some PyError.attributeError :=
  ⟨rfl, rfl⟩

/-- Claim C3, witness: on the well-formed fixture both mains succeed. -/
theorem claim3_witness :
    (SessionCheck.main stGood).err = none ∧ (SessionStart.main stGood).err = none :=
  claim3_exit_success_amended stGood rfl

/-- Claim C4, corrected.  The original claim — the prompt-time reporter
always prints exactly one of two fixed lines — is refuted by
`claim4_counterexample`: on a located file holding the valid JSON `[]` the
checker raises, `main` aborts, and nothing is printed.  Amended claim: on
every state on which the checker cannot raise (absent or unreadable file,
contents that decode but do not parse, or a top-level mapping with a
mapping-or-absent `"mcpServers"` value), `main` prints exactly one line,
chosen between the
two fixed newline-free strings with no interpolation: the configured line
exactly when a path is located and the checker returns `True`; when no
path is located the checker is never consulted and the not-configured line
is printed. -/
theorem claim4_prompt_reporter_amended (st : State)
    (h : benignData (configData st) = true) :
    ((SessionCheck.main st).out = [CONFIGURED_LINE]
      ∨ (SessionCheck.main st).out = [NOT_CONFIGURED_LINE])
    ∧ ((SessionCheck.main st).out = [CONFIGURED_LINE]
        ↔ ∃ p, SessionCheck.find_mcp_config st = some p
            ∧ SessionCheck.has_graph_flow_entry st p = Except.ok true)
    ∧ (SessionCheck.main st).err = none
    ∧ (SessionCheck.find_mcp_config st = none
        → (SessionCheck.main st).out = [NOT_CONFIGURED_LINE])
    ∧ CONFIGURED_LINE ≠ NOT_CONFIGURED_LINE
    ∧ CONFIGURED_LINE.data.contains '\n' = false
    ∧ NOT_CONFIGURED_LINE.data.contains '\n' = false := by
  have hc := mainCheck_benign_cases st h
  refine ⟨?_, ⟨?_, ?_⟩, ?_, ?_, by decide, by decide, by decide⟩
  · rcases hc with ⟨hm, _, _⟩ | ⟨hm, _⟩
    · exact Or.inl (by rw [hm])
    · exact Or.inr (by rw [hm])
  · intro hout
    rcases hc with ⟨hm, hfind, hhas⟩ | ⟨hm, _⟩
    · exact ⟨cfgPath st, hfind, hhas⟩
    · rw [hm] at hout
      have hlines : NOT_CONFIGURED_LINE = CONFIGURED_LINE := by
        injection hout with h1 h2
      exact absurd hlines (by decide)
  · rintro ⟨p, hp, hhas⟩
    rcases hc with ⟨hm, _, _⟩ | ⟨hm, hall⟩
    · rw [hm]
    · have hfalse := hall p hp
      rw [hhas] at hfalse
      exact absurd hfalse (by simp)
  · rcases hc with ⟨hm, _, _⟩ | ⟨hm, _⟩ <;> rw [hm]
  · intro hnone
    rcases hc with ⟨hm, hfind, _⟩ | ⟨hm, _⟩
    · rw [hfind] at hnone
      exact absurd hnone (by simp)
    · rw [hm]

/-- Claim C4, counterexample to the original wording: on `[]` (valid JSON,
top level not a mapping) the prompt-time reporter prints nothing at all —
neither of the two fixed lines — and crashes instead. -/
theorem claim4_counterexample :
    (SessionCheck.main stTopArr).out = []
    ∧ (SessionCheck.main stTopArr).err = some PyError.attributeError :=
  ⟨rfl, rfl⟩

/-- Claim C4, witness: on the well-formed fixture the configured line is
printed and the run succeeds. -/
theorem claim4_witness :
    (SessionCheck.main stGood).out = [CONFIGURED_LINE]
    ∧ (SessionCheck.main stGood).err = none := by
  have h := claim4_prompt_reporter_amended stGood rfl
  exact ⟨h.2.1.mpr ⟨"/w/.mcp.json", rfl, rfl⟩, h.2.2.1⟩

set_option maxRecDepth 100000 in
/-- Helper: the serialised configured-case payload contains no newline, so
`print` emits it as exactly one line. -/
theorem dumps_output_no_newline :
    (json_dumps SessionStart.output).data.contains '\n' = false := by rfl

set_option maxRecDepth 100000 in
/-- Helper: the serialised configured-case payload differs from the
empty-object line. -/
theorem dumps_output_ne_empty_obj : json_dumps SessionStart.output ≠ EMPTY_OBJ_LINE := by
  decide

/-- Helper: on benign states the session-start reporter either prints the
serialised advisory object (with a located path on which the checker
returns `True`) or prints the empty-object line (and the checker returns
`False` on any located path). -/
theorem mainStart_benign_cases (st : State) (h : benignData (configData st) = true) :
    (SessionStart.main st = ⟨[json_dumps SessionStart.output], none, st⟩
      ∧ SessionStart.find_mcp_config st = some (cfgPath st)
      ∧ SessionStart.has_graph_flow_entry st (cfgPath st) = Except.ok true)
    ∨ (SessionStart.main st = ⟨[EMPTY_OBJ_LINE], none, st⟩
      ∧ ∀ p, SessionStart.find_mcp_config st = some p
          → SessionStart.has_graph_flow_entry st p = Except.ok false) := by
  by_cases hf : isfile st (cfgPath st) = true
  · obtain ⟨b, hb⟩ := has_ok_of_benign st (cfgPath st) h
    have hmain := mainStart_of_found st hf
    rw [hasStart_eq_hasCheck, hb] at hmain
    have hfind : SessionStart.find_mcp_config st = some (cfgPath st) := by
      rw [findStart_eq_findCheck, findCheck_eq, hf]; exact rfl
    cases b
    · right
      refine ⟨by rw [hmain], ?_⟩
      intro p hp
      rw [hfind] at hp
      injection hp with hpe
      rw [← hpe, hasStart_eq_hasCheck]
      exact hb
    · left
      refine ⟨by rw [hmain], hfind, ?_⟩
      rw [hasStart_eq_hasCheck]
      exact hb
  · have hf' := bool_eq_false_of_not_true _ hf
    right
    refine ⟨mainStart_of_notfound st hf', ?_⟩
    intro p hp
    rw [findStart_eq_findCheck, findCheck_eq, hf'] at hp
    exact absurd hp (by simp)

/-- Claim C5, corrected.  The original claim — the session-start reporter
always prints exactly one line, `EMPTY_OBJ_LINE` when not configured and
the fixed JSON envelope when configured — is refuted by
`claim5_counterexample`: on a located file holding `{"mcpServers": true}`
the membership test raises `TypeError`, `main` aborts, and nothing is
printed.  Amended claim: on every state on which the checker cannot raise,
`main` prints exactly one line — the literal `EMPTY_OBJ_LINE` when the
configuration is not detected, and otherwise the `json.dumps` rendering of
the fixed object `output` = `{"hookSpecificOutput": {"hookEventName":
"SessionStart", "additionalContext": CONTEXT}}` whose context string is
the fixed constant `CONTEXT`. -/
theorem claim5_session_start_amended (st : State)
    (h : benignData (configData st) = true) :
    ((SessionStart.main st).out = [EMPTY_OBJ_LINE]
      ∨ (SessionStart.main st).out = [json_dumps SessionStart.output])
    ∧ ((SessionStart.main st).out = [json_dumps SessionStart.output]
        ↔ ∃ p, SessionStart.find_mcp_config st = some p
            ∧ SessionStart.has_graph_flow_entry st p = Except.ok true)
    ∧ (SessionStart.main st).err = none
    ∧ (SessionStart.find_mcp_config st = none
        → (SessionStart.main st).out = [EMPTY_OBJ_LINE])
    ∧ json_dumps SessionStart.output ≠ EMPTY_OBJ_LINE
    ∧ EMPTY_OBJ_LINE.data.contains '\n' = false
    ∧ (json_dumps SessionStart.output).data.contains '\n' = false := by
  have hc := mainStart_benign_cases st h
  refine ⟨?_, ⟨?_, ?_⟩, ?_, ?_, dumps_output_ne_empty_obj, by decide,
    dumps_output_no_newline⟩
  · rcases hc with ⟨hm, _, _⟩ | ⟨hm, _⟩
    · exact Or.inr (by rw [hm])
    · exact Or.inl (by rw [hm])
  · intro hout
    rcases hc with ⟨hm, hfind, hhas⟩ | ⟨hm, _⟩
    · exact ⟨cfgPath st, hfind, hhas⟩
    · rw [hm] at hout
      have hlines : EMPTY_OBJ_LINE = json_dumps SessionStart.output := by
        injection hout with h1 h2
      exact absurd hlines.symm dumps_output_ne_empty_obj
  · rintro ⟨p, hp, hhas⟩
    rcases hc with ⟨hm, _, _⟩ | ⟨hm, hall⟩
    · rw [hm]
    · have hfalse := hall p hp
      rw [hhas] at hfalse
      exact absurd hfalse (by simp)
  · rcases hc with ⟨hm, _, _⟩ | ⟨hm, _⟩ <;> rw [hm]
  · intro hnone
    rcases hc with ⟨hm, hfind, _⟩ | ⟨hm, _⟩
    · rw [hfind] at hnone
      exact absurd hnone (by simp)
    · rw [hm]

/-- Claim C5, counterexample to the original wording: on
`{"mcpServers": true}` the session-start reporter prints nothing — neither
`EMPTY_OBJ_LINE` nor the envelope — and crashes with `TypeError`. -/
theorem claim5_counterexample :
    (SessionStart.main stSrvBool).out = []
    ∧ (SessionStart.main stSrvBool).err = some PyError.typeError :=
  ⟨rfl, rfl⟩

/-- Claim C5, witness: on the well-formed fixture the envelope line is
printed and the run succeeds. -/
theorem claim5_witness :
    (SessionStart.main stGood).out = [json_dumps SessionStart.output]
    ∧ (SessionStart.main stGood).err = none := by
  have h := claim5_session_start_amended stGood rfl
  exact ⟨h.2.1.mpr ⟨"/w/.mcp.json", rfl, rfl⟩, h.2.2.1⟩

/-- Helper: existence of the configuration file, phrased through
`configData`. -/
theorem isfile_cfgPath (st : State) :
    isfile st (cfgPath st) =
      (match configData st with | FileData.absent => false | _ => true) := rfl

/-- Claim C6, corrected.  The locator takes the root from
`CLAUDE_PROJECT_DIR` when set (the working directory otherwise), and
returns the joined path exactly when a regular file exists there, `None`
otherwise; being a total function of the state, it never raises; setting
the variable to a directory containing the file makes detection succeed
regardless of the working directory.  The original claim also calls the
result "the absolute path", which is refuted by `claim6_counterexample`
(a relative `CLAUDE_PROJECT_DIR` yields a relative path); the amendment
asserts absoluteness only when the root itself is absolute — as it always
is when defaulted to the working directory. -/
theorem claim6_locator_amended (st : State) :
    (isfile st (cfgPath st) = true
      → SessionCheck.find_mcp_config st = some (cfgPath st)
        ∧ SessionStart.find_mcp_config st = some (cfgPath st))
    ∧ (isfile st (cfgPath st) = false
      → SessionCheck.find_mcp_config st = none
        ∧ SessionStart.find_mcp_config st = none)
    ∧ (∀ d, st.env = some d → cfgPath st = os_path_join d ".mcp.json")
    ∧ (st.env = none → cfgPath st = os_path_join st.cwd ".mcp.json")
    ∧ (isAbs (st.env.getD st.cwd) = true → isAbs (cfgPath st) = true) := by
  refine ⟨?_, ?_, ?_, ?_, ?_⟩
  · intro hf
    constructor
    · rw [findCheck_eq, hf]; exact rfl
    · rw [findStart_eq_findCheck, findCheck_eq, hf]; exact rfl
  · intro hf
    constructor
    · rw [findCheck_eq, hf]; exact rfl
    · rw [findStart_eq_findCheck, findCheck_eq, hf]; exact rfl
  · intro d hd; simp [cfgPath, hd]
  · intro hd; simp [cfgPath, hd]
  · intro habs
    unfold cfgPath os_path_join
    split_ifs with h1 h2 h3
    · exact absurd h1 (by decide)
    · rw [h2] at habs; exact absurd habs (by decide)
    · exact isAbs_append _ _ habs
    · exact isAbs_append _ _ (isAbs_append _ _ habs)

/-- Claim C6, counterexample to the "absolute path" wording: with
`CLAUDE_PROJECT_DIR` set to the relative path `rel` from working
directory `/w`, and a regular file where the OS resolves
`rel/.mcp.json`, the locator returns the relative path
`rel/.mcp.json`. -/
theorem claim6_counterexample :
    SessionCheck.find_mcp_config stRel = some "rel/.mcp.json"
    ∧ isAbs "rel/.mcp.json" = false :=
  ⟨rfl, rfl⟩

/-- Claim C6, witness for the environment-override scenario:
`CLAUDE_PROJECT_DIR=/d` holds the file, the working directory `/w`
differs and lacks it, and detection succeeds with the path under `/d`. -/
theorem claim6_witness :
    SessionCheck.find_mcp_config stOverride = some "/d/.mcp.json"
    ∧ stOverride.cwd = "/w"
    ∧ isfile stOverride (os_path_join stOverride.cwd ".mcp.json") = false := by
  have h := (claim6_locator_amended stOverride).1 rfl
  exact ⟨h.1, rfl, rfl⟩

/-- Helper: the checker returns `False` on a configuration file holding
the empty object. -/
theorem hasCheck_empty_json (e : Option String) (c : String) (f : String → FileData) :
    SessionCheck.has_graph_flow_entry (withCfg e c f (FileData.json EMPTY_JSON))
      (cfgPath (withCfg e c f (FileData.json EMPTY_JSON))) = Except.ok false := by
  have hfs : (withCfg e c f (FileData.json EMPTY_JSON)).fs
      (resolvePath (withCfg e c f (FileData.json EMPTY_JSON)).cwd
        (cfgPath (withCfg e c f (FileData.json EMPTY_JSON))))
      = FileData.json (Json.obj []) :=
    configData_withCfg e c f (FileData.json EMPTY_JSON)
  unfold SessionCheck.has_graph_flow_entry openAndLoad
  rw [hfs]
  simp [py_get, dict_get, py_in]

/-- Helper: the checker returns `False` on a configuration file naming
only `other-tool`. -/
theorem hasCheck_other_json (e : Option String) (c : String) (f : String → FileData) :
    SessionCheck.has_graph_flow_entry (withCfg e c f (FileData.json OTHER_JSON))
      (cfgPath (withCfg e c f (FileData.json OTHER_JSON))) = Except.ok false := by
  have hfs : (withCfg e c f (FileData.json OTHER_JSON)).fs
      (resolvePath (withCfg e c f (FileData.json OTHER_JSON)).cwd
        (cfgPath (withCfg e c f (FileData.json OTHER_JSON))))
      = FileData.json (Json.obj [("mcpServers", Json.obj [("other-tool", Json.obj [])])]) :=
    configData_withCfg e c f (FileData.json OTHER_JSON)
  unfold SessionCheck.has_graph_flow_entry openAndLoad
  rw [hfs]
  simp [py_get, dict_get, py_in]

/-- Claim C7, confirmed: for every environment, working directory and rest
of the filesystem, both reporters behave identically (same lines printed,
same exit behaviour) on an absent configuration file, on one holding `{}`,
and on one holding `{"mcpServers": {"other-tool": {}}}`. -/
theorem claim7_fail_soft_equivalence (e : Option String) (c : String)
    (f : String → FileData) :
    ((SessionCheck.main (withCfg e c f FileData.absent)).out
        = (SessionCheck.main (withCfg e c f (FileData.json EMPTY_JSON))).out)
    ∧ ((SessionCheck.main (withCfg e c f FileData.absent)).err
        = (SessionCheck.main (withCfg e c f (FileData.json EMPTY_JSON))).err)
    ∧ ((SessionStart.main (withCfg e c f FileData.absent)).out
        = (SessionStart.main (withCfg e c f (FileData.json EMPTY_JSON))).out)
    ∧ ((SessionStart.main (withCfg e c f FileData.absent)).err
        = (SessionStart.main (withCfg e c f (FileData.json EMPTY_JSON))).err)
    ∧ ((SessionCheck.main (withCfg e c f (FileData.json OTHER_JSON))).out
        = (SessionCheck.main (withCfg e c f FileData.absent)).out)
    ∧ ((SessionCheck.main (withCfg e c f (FileData.json OTHER_JSON))).err
        = (SessionCheck.main (withCfg e c f FileData.absent)).err)
    ∧ ((SessionStart.main (withCfg e c f (FileData.json OTHER_JSON))).out
        = (SessionStart.main (withCfg e c f FileData.absent)).out)
    ∧ ((SessionStart.main (withCfg e c f (FileData.json OTHER_JSON))).err
        = (SessionStart.main (withCfg e c f FileData.absent)).err) := by
  have hAbs : isfile (withCfg e c f FileData.absent)
      (cfgPath (withCfg e c f FileData.absent)) = false := by
    rw [isfile_cfgPath, configData_withCfg]
  have hEmp : isfile (withCfg e c f (FileData.json EMPTY_JSON))
      (cfgPath (withCfg e c f (FileData.json EMPTY_JSON))) = true := by
    rw [isfile_cfgPath, configData_withCfg]
  have hOth : isfile (withCfg e c f (FileData.json OTHER_JSON))
      (cfgPath (withCfg e c f (FileData.json OTHER_JSON))) = true := by
    rw [isfile_cfgPath, configData_withCfg]
  have mAbsC := mainCheck_of_notfound _ hAbs
  have mAbsS := mainStart_of_notfound _ hAbs
  have mEmpC : SessionCheck.main (withCfg e c f (FileData.json EMPTY_JSON))
      = ⟨[NOT_CONFIGURED_LINE], none, withCfg e c f (FileData.json EMPTY_JSON)⟩ := by
    rw [mainCheck_of_found _ hEmp, hasCheck_empty_json]
  have mEmpS : SessionStart.main (withCfg e c f (FileData.json EMPTY_JSON))
      = ⟨[EMPTY_OBJ_LINE], none, withCfg e c f (FileData.json EMPTY_JSON)⟩ := by
    rw [mainStart_of_found _ hEmp, hasStart_eq_hasCheck, hasCheck_empty_json]
  have mOthC : SessionCheck.main (withCfg e c f (FileData.json OTHER_JSON))
      = ⟨[NOT_CONFIGURED_LINE], none, withCfg e c f (FileData.json OTHER_JSON)⟩ := by
    rw [mainCheck_of_found _ hOth, hasCheck_other_json]
  have mOthS : SessionStart.main (withCfg e c f (FileData.json OTHER_JSON))
      = ⟨[EMPTY_OBJ_LINE], none, withCfg e c f (FileData.json OTHER_JSON)⟩ := by
    rw [mainStart_of_found _ hOth, hasStart_eq_hasCheck, hasCheck_other_json]
  rw [mAbsC, mAbsS, mEmpC, mEmpS, mOthC, mOthS]
  exact ⟨rfl, rfl, rfl, rfl, rfl, rfl, rfl, rfl⟩

/-- Helper: the checker's behaviour at the configuration path depends
only on the data stored there, not on the rest of the filesystem. -/
theorem hasCheck_cfgPath_congr (st st2 : State)
    (h : configData st = configData st2) :
    SessionCheck.has_graph_flow_entry st (cfgPath st)
      = SessionCheck.has_graph_flow_entry st2 (cfgPath st2) := by
  unfold SessionCheck.has_graph_flow_entry openAndLoad
  rw [show st.fs (resolvePath st.cwd (cfgPath st)) = configData st from rfl,
      show st2.fs (resolvePath st2.cwd (cfgPath st2)) = configData st2 from rfl, h]

/-- Claim C8, confirmed: each reporter's observable behaviour is a
deterministic function of the environment variable, the working
directory, and the state of the configuration file alone: any two states
agreeing on those three — however the rest of the filesystem differs —
yield the same printed lines and the same exit behaviour.  In particular,
running a reporter twice with no change to the configuration file (and
the same environment and working directory) produces byte-identical
standard output.  The embedding is faithful on this point: each script
reads each of these inputs at most once per run and uses no clock or
randomness. -/
theorem claim8_deterministic (st st2 : State)
    (_henv : st.env = st2.env) (_hcwd : st.cwd = st2.cwd)
    (hcfg : configData st = configData st2) :
    (SessionCheck.main st).out = (SessionCheck.main st2).out
    ∧ (SessionCheck.main st).err = (SessionCheck.main st2).err
    ∧ (SessionStart.main st).out = (SessionStart.main st2).out
    ∧ (SessionStart.main st).err = (SessionStart.main st2).err := by
  have hfile2 : isfile st2 (cfgPath st2) = isfile st (cfgPath st) := by
    rw [isfile_cfgPath, isfile_cfgPath, hcfg]
  by_cases hf : isfile st (cfgPath st) = true
  · have hm1c := mainCheck_of_found st hf
    have hm2c := mainCheck_of_found st2 (by rw [hfile2]; exact hf)
    have hm1s := mainStart_of_found st hf
    have hm2s := mainStart_of_found st2 (by rw [hfile2]; exact hf)
    have hcg := hasCheck_cfgPath_congr st st2 hcfg
    rw [← hcg] at hm2c
    rw [hasStart_eq_hasCheck] at hm1s hm2s
    rw [← hcg] at hm2s
    cases hx : SessionCheck.has_graph_flow_entry st (cfgPath st) with
    | ok b =>
      rw [hx] at hm1c hm2c hm1s hm2s
      cases b <;> rw [hm1c, hm2c, hm1s, hm2s] <;> exact ⟨rfl, rfl, rfl, rfl⟩
    | error e2 =>
      rw [hx] at hm1c hm2c hm1s hm2s
      rw [hm1c, hm2c, hm1s, hm2s]
      exact ⟨rfl, rfl, rfl, rfl⟩
  · have hf1 := bool_eq_false_of_not_true _ hf
    have hf2 : isfile st2 (cfgPath st2) = false := by rw [hfile2]; exact hf1
    rw [mainCheck_of_notfound st hf1, mainCheck_of_notfound st2 hf2,
        mainStart_of_notfound st hf1, mainStart_of_notfound st2 hf2]
    exact ⟨rfl, rfl, rfl, rfl⟩

/-- Claim C8, witness: two states sharing the environment, working
directory and configuration file but differing in an unrelated file
(`/w/other.txt`) produce identical output for both reporters. -/
theorem claim8_witness :
    (SessionCheck.main stGood).out = (SessionCheck.main stGoodExtra).out
    ∧ (SessionStart.main stGood).out = (SessionStart.main stGoodExtra).out := by
  have h := claim8_deterministic stGood stGoodExtra rfl rfl rfl
  exact ⟨h.1, h.2.2.1⟩

/-- Claim C9, corrected.  The frame part of the claim holds on every
state: neither reporter creates, mutates or deletes anything — the final
external state equals the initial one (first conjunct, unconditional; the
translation threads the state through every branch, the sources containing
only a read-only `open` and `print` calls).  The "only side effect is
writing one line to standard output" part is refuted by
`claim9_counterexample` (on `{"mcpServers": null}` nothing is written to
stdout and the uncaught exception produces a stderr traceback and a
non-zero exit); amended, it holds on every state on which the checker
cannot raise. -/
theorem claim9_frame_amended (st : State)
    (h : benignData (configData st) = true) :
    (∀ s2 : State, (SessionCheck.main s2).final = s2 ∧ (SessionStart.main s2).final = s2)
    ∧ (∃ s, (SessionCheck.main st).out = [s])
    ∧ (∃ s, (SessionStart.main st).out = [s])
    ∧ (SessionCheck.main st).err = none
    ∧ (SessionStart.main st).err = none := by
  refine ⟨?_, ?_⟩
  · intro s2
    constructor
    · unfold SessionCheck.main
      split
      · rfl
      · split
        · rfl
        · split <;> rfl
    · unfold SessionStart.main
      split
      · rfl
      · split
        · rfl
        · split <;> rfl
  · rcases mainCheck_benign_cases st h with ⟨hm, _, _⟩ | ⟨hm, _⟩ <;>
      rcases mainStart_benign_cases st h with ⟨hs, _, _⟩ | ⟨hs, _⟩ <;>
      rw [hm, hs] <;>
      exact ⟨⟨_, rfl⟩, ⟨_, rfl⟩, rfl, rfl⟩

/-- Claim C9, counterexample to the "writes one line" wording: on
`{"mcpServers": null}` the prompt-time reporter writes nothing to standard
output; its observable effects are instead a stderr traceback and a
non-zero exit from the uncaught `TypeError`. -/
theorem claim9_counterexample :
    (SessionCheck.main stSrvNull).out = []
    ∧ (SessionCheck.main stSrvNull).err = some PyError.typeError :=
  ⟨rfl, rfl⟩

/-- Claim C9, witness: on the well-formed fixture the filesystem is left
untouched and exactly one line is written by each reporter. -/
theorem claim9_witness :
    (SessionCheck.main stGood).final = stGood
    ∧ (SessionStart.main stGood).final = stGood := by
  have h := claim9_frame_amended stGood rfl
  exact ⟨(h.1 stGood).1, (h.1 stGood).2⟩

/-- Claim C10, confirmed: the helper functions duplicated across the two
scripts are extensionally equal — the locators agree on every state and
the checkers agree on every state and path (both pairs differ only in
Python surface syntax, early `return` versus conditional expression and an
intermediate variable versus inlining) — and consequently the two
reporters compute the same CONFIGURED / NOT_CONFIGURED determination from
the same state: equal exit behaviour, and the prompt-time reporter prints
its configured line exactly when the session-start reporter prints the
advisory envelope. -/
theorem claim10_duplicated_helpers :
    (∀ st : State, SessionCheck.find_mcp_config st = SessionStart.find_mcp_config st)
    ∧ (∀ (st : State) (p : String),
        SessionCheck.has_graph_flow_entry st p = SessionStart.has_graph_flow_entry st p)
    ∧ (∀ st : State, (SessionCheck.main st).err = (SessionStart.main st).err)
    ∧ (∀ st : State,
        ((SessionCheck.main st).out = [CONFIGURED_LINE]
          ↔ (SessionStart.main st).out = [json_dumps SessionStart.output])) := by
  have key : ∀ st : State,
      (SessionCheck.main st).err = (SessionStart.main st).err
      ∧ ((SessionCheck.main st).out = [CONFIGURED_LINE]
          ↔ (SessionStart.main st).out = [json_dumps SessionStart.output]) := by
    intro st
    by_cases hf : isfile st (cfgPath st) = true
    · have hc := mainCheck_of_found st hf
      have hs := mainStart_of_found st hf
      rw [hasStart_eq_hasCheck] at hs
      cases hhas : SessionCheck.has_graph_flow_entry st (cfgPath st) with
      | ok b =>
        rw [hhas] at hc hs
        cases b
        · rw [hc, hs]
          refine ⟨rfl, ?_, ?_⟩
          · intro hx
            injection hx with h1 h2
            exact absurd h1 (by decide)
          · intro hx
            injection hx with h1 h2
            exact absurd h1.symm dumps_output_ne_empty_obj
        · rw [hc, hs]
          exact ⟨rfl, fun _ => rfl, fun _ => rfl⟩
      | error e2 =>
        rw [hhas] at hc hs
        rw [hc, hs]
        refine ⟨rfl, ?_, ?_⟩
        · intro hx
          exact List.noConfusion hx
        · intro hx
          exact List.noConfusion hx
    · have hf' := bool_eq_false_of_not_true _ hf
      rw [mainCheck_of_notfound st hf', mainStart_of_notfound st hf']
      refine ⟨rfl, ?_, ?_⟩
      · intro hx
        injection hx with h1 h2
        exact absurd h1 (by decide)
      · intro hx
        injection hx with h1 h2
        exact absurd h1.symm dumps_output_ne_empty_obj
  exact ⟨fun st => rfl, fun st p => rfl,
    fun st => (key st).1, fun st => (key st).2⟩

/-- Claim C7, witness: an instantiation at a concrete environment,
working directory, and otherwise empty filesystem. -/
theorem claim7_witness :
    (SessionCheck.main (withCfg none "/w" (fun _ => FileData.absent) FileData.absent)).out
      = (SessionCheck.main (withCfg none "/w" (fun _ => FileData.absent)
          (FileData.json EMPTY_JSON))).out :=
  (claim7_fail_soft_equivalence none "/w" (fun _ => FileData.absent)).1

/-- Claim C10, witness: an instantiation at the well-formed fixture. -/
theorem claim10_witness :
    SessionCheck.find_mcp_config stGood = SessionStart.find_mcp_config stGood
    ∧ SessionCheck.has_graph_flow_entry stGood "/w/.mcp.json"
        = SessionStart.has_graph_flow_entry stGood "/w/.mcp.json" :=
  ⟨claim10_duplicated_helpers.1 stGood,
   claim10_duplicated_helpers.2.1 stGood "/w/.mcp.json"⟩
